import Mathlib

/-!
Shallow embedding of the GManage front-end (a Gmail bulk-management web UI).

The embedded code comes from:
* `src/frontend/src/services/api.ts` (= `src/unnamed/part_006`): the axios
  `ApiService` class, its request/response interceptors (401-triggered
  single-flight token refresh), `clearAuthData`, and
  `getGoogleOAuthStatus`.
* `src/unnamed/part_000` (the `BulkOperations` page): `generateQuery`,
  `validateForm`, `handleExecute`, `getErrorMessage`, `canRetry`,
  `retryOperation`, and the task-status polling `useEffect`.
* `src/unnamed/part_005` (`types/interfaces`): the `TaskStatus` and
  `GoogleOAuthStatus` records.

JavaScript-specific semantics (truthiness of `||`, `!` on `null`,
case-sensitive `String.prototype.includes`) are modelled explicitly by the
`js*` helper functions below.
-/

/-- `l` starts with the character sequence `pat`. -/
def startsWithChars : List Char → List Char → Bool
  | _, [] => true
  | [], _ :: _ => false
  | c :: cs, p :: ps => c == p && startsWithChars cs ps

/-- Some suffix of `l` starts with the character sequence `pat`. -/
def containsChars (l pat : List Char) : Bool :=
  match l with
  | [] => startsWithChars [] pat
  | c :: t => startsWithChars (c :: t) pat || containsChars t pat

/-- JS string containment: `s.includes(pat)` (case sensitive). -/
def jsIncludes (s pat : String) : Bool :=
  containsChars s.toList pat.toList

/-- JS `!x` on a nullable boolean: `!null = true`, `!b = not b`. -/
def jsNotOpt : Option Bool → Bool
  | none => true
  | some b => !b

/-- JS truthiness of a nullable number: `undefined`/`null` and `0` are falsy. -/
def jsTruthyNum : Option Int → Bool
  | none => false
  | some n => n != 0

/-- JS truthiness of a nullable string: `undefined`/`null` and `""` are falsy. -/
def jsTruthyStr : Option String → Bool
  | none => false
  | some s => s ≠ ""

/-- JS `a || b` on nullable strings (returns `b` when `a` is falsy). -/
def jsOrStr (a b : Option String) : Option String :=
  if jsTruthyStr a then a else b

/-- JS `Array.prototype.join(' ')` on a list of strings. -/
def joinSpace : List String → String
  | [] => ""
  | [x] => x
  | x :: xs => x ++ " " ++ joinSpace xs

/-! ## Data model (`src/unnamed/part_005`, types/interfaces) -/

/-- The two operation kinds of the `BulkOperations` page
(`useState<'delete' | 'recover'>`). -/
inductive Operation
  | delete
  | recover
deriving DecidableEq, Repr

/-- The `status` field of `TaskStatus`
(`'PENDING' | 'PROGRESS' | 'SUCCESS' | 'FAILURE'`). -/
inductive TStatus
  | PENDING
  | PROGRESS
  | SUCCESS
  | FAILURE
deriving DecidableEq, Repr

/-- The loosely-typed `result` payload of a `TaskStatus` (`result?: any`):
the fields the polling loop actually reads, each possibly absent. -/
structure TaskResult where
  successful : Option Int
  total : Option Int
  error : Option String
deriving DecidableEq, Repr

/-- `TaskStatus` record from `types/interfaces`. -/
structure TaskStatusRec where
  task_id : String
  status : TStatus
  result : Option TaskResult
deriving DecidableEq, Repr

/-- Backend `GoogleOAuthStatus` fields used to derive `authenticated`
(`is_expired : boolean | null`). -/
structure GoogleOAuthStatusRaw where
  has_token : Bool
  is_expired : Option Bool
  is_connected : Bool
deriving DecidableEq, Repr

/-- `getGoogleOAuthStatus` (api.ts line 152): the computed compatibility
field `authenticated: data.has_token && data.is_connected && !data.is_expired`,
with JS `!` on the nullable `is_expired`. -/
def getGoogleOAuthStatus_authenticated (data : GoogleOAuthStatusRaw) : Bool :=
  data.has_token && data.is_connected && jsNotOpt data.is_expired

/-! ## BulkOperations form state and query generation (`src/unnamed/part_000`) -/

/-- The form state of the `BulkOperations` page: `selectedCategory`,
`selectedTimePeriod`, `emailCount`, `operation`. -/
structure FormState where
  selectedCategory : String
  selectedTimePeriod : String
  emailCount : Int
  operation : Operation
deriving DecidableEq, Repr

/-- `generateQuery` (part_000 lines 292-307): builds the Gmail query from the
selection. For a truthy category: recover pushes only `in:trash`; delete
pushes the category and, when a time period is selected, an
`older_than:` clause. The parts are joined with a single space. -/
def generateQuery (f : FormState) : String :=
  let parts : List String :=
    if f.selectedCategory ≠ "" then
      if f.operation = Operation.recover then
        ["in:trash"]
      else
        [f.selectedCategory] ++
          (if f.selectedTimePeriod ≠ "" then
            ["older_than:" ++ f.selectedTimePeriod]
          else [])
    else []
  joinSpace parts

/-- The field-keyed validation errors produced by `validateForm`. -/
structure ValidationErrors where
  category : Option String
  timePeriod : Option String
  emailCount : Option String
deriving DecidableEq, Repr

/-- `validateForm` (part_000 lines 219-238): category required; email age
required for delete; email count must be between 1 and 10,000. -/
def validateForm (f : FormState) : ValidationErrors where
  category :=
    if f.selectedCategory = "" then some "Please select an email category"
    else none
  timePeriod :=
    if f.operation = Operation.delete ∧ f.selectedTimePeriod = "" then
      some "Please select email age"
    else none
  emailCount :=
    if f.emailCount < 1 ∨ f.emailCount > 10000 then
      some "Email count must be between 1 and 10,000"
    else none

/-- `Object.keys(errors).length === 0` fails: some validation error exists. -/
def hasValidationErrors (v : ValidationErrors) : Bool :=
  v.category.isSome || v.timePeriod.isSome || v.emailCount.isSome

/-- The `valid` result of `validateForm` (no field-keyed error). -/
def isFormValid (f : FormState) : Bool :=
  !hasValidationErrors (validateForm f)

/-- The two job-submission endpoints (`bulkDeleteByQuery` posts to
`/gmail/delete-by-query/`, `bulkRecoverByQuery` to `/gmail/recover-by-query/`). -/
inductive Endpoint
  | deleteByQuery
  | recoverByQuery
deriving DecidableEq, Repr

/-- The externally visible action of `handleExecute`: either blocked with an
error message and no request posted, or a job body `{ q, max_emails }`
posted to one endpoint. -/
inductive ExecuteAction
  | blocked (errorMsg : String)
  | posted (endpoint : Endpoint) (q : String) (max_emails : Int)
deriving DecidableEq, Repr

/-- `handleExecute` (part_000 lines 330-351): re-validates; when invalid it
sets an error and returns without posting; otherwise it posts
`{ q: generateQuery(), max_emails: emailCount }` to the endpoint chosen by
the operation kind. -/
def handleExecute (f : FormState) : ExecuteAction :=
  if !isFormValid f then
    ExecuteAction.blocked "Please fix the validation errors before proceeding"
  else
    ExecuteAction.posted
      (if f.operation = Operation.delete then Endpoint.deleteByQuery
       else Endpoint.recoverByQuery)
      (generateQuery f)
      f.emailCount

/-! ## Theorems for the query builder and validation -/

/-- C4: with `operationKind = recover` and a non-empty category the derived
query is exactly `"in:trash"`, and for recover (any category, any age
bucket, any count) the query never contains an `older_than` clause. -/
theorem recover_query_is_in_trash_and_never_aged
    (cat tp : String) (n : Int) :
    (cat ≠ "" →
      generateQuery ⟨cat, tp, n, Operation.recover⟩ = "in:trash") ∧
    jsIncludes (generateQuery ⟨cat, tp, n, Operation.recover⟩) "older_than"
      = false := by
  have hq : ∀ c : String, c ≠ "" →
      generateQuery ⟨c, tp, n, Operation.recover⟩ = "in:trash" := by
    intro c hcne
    simp [generateQuery, hcne, joinSpace]
  by_cases hc : cat = ""
  · subst hc
    refine ⟨fun h => absurd rfl h, ?_⟩
    have hq0 : generateQuery ⟨"", tp, n, Operation.recover⟩ = "" := by
      simp [generateQuery, joinSpace]
    rw [hq0]
    decide
  · refine ⟨fun _ => hq cat hc, ?_⟩
    rw [hq cat hc]
    decide

/-- C4 witness: concrete recover selection with category `in:spam` and age
bucket `30d`. -/
theorem recover_query_is_in_trash_and_never_aged_witness :
    generateQuery ⟨"in:spam", "30d", 500, Operation.recover⟩ = "in:trash" :=
  (recover_query_is_in_trash_and_never_aged "in:spam" "30d" 500).1
    (by decide)

/-- C5: for a delete with a non-empty category, age bucket `"30d"` and count
500, the derived query is the category followed by `" older_than:30d"`, and
`handleExecute` posts `{ q, max_emails: 500 }` to the delete endpoint. -/
theorem delete_30d_posts_category_older_than
    (cat : String) (hc : cat ≠ "") :
    generateQuery ⟨cat, "30d", 500, Operation.delete⟩
      = cat ++ " older_than:30d" ∧
    handleExecute ⟨cat, "30d", 500, Operation.delete⟩
      = ExecuteAction.posted Endpoint.deleteByQuery
          (cat ++ " older_than:30d") 500 := by
  have hq : generateQuery ⟨cat, "30d", 500, Operation.delete⟩
      = cat ++ " older_than:30d" := by
    simp [generateQuery, hc, joinSpace]
    rw [String.append_assoc]
    congr 1
  refine ⟨hq, ?_⟩
  have hvalid : isFormValid ⟨cat, "30d", 500, Operation.delete⟩ = true := by
    simp [isFormValid, hasValidationErrors, validateForm, hc]
  simp [handleExecute, hvalid, hq]

/-- C5 witness: the concrete scenario with the spam category. -/
theorem delete_30d_posts_category_older_than_witness :
    handleExecute ⟨"in:spam", "30d", 500, Operation.delete⟩
      = ExecuteAction.posted Endpoint.deleteByQuery
          "in:spam older_than:30d" 500 := by
  have h := (delete_30d_posts_category_older_than "in:spam" (by decide)).2
  rw [h]
  decide

/-- C6: `validateForm` yields an `emailCount` error iff the count lies
outside `[1, 10000]` (both boundaries valid), and whenever any validation
error exists `handleExecute` sets an error and posts no request. -/
theorem email_count_validation_gates_submission (f : FormState) :
    ((validateForm f).emailCount.isSome
      ↔ (f.emailCount < 1 ∨ f.emailCount > 10000)) ∧
    (hasValidationErrors (validateForm f) = true →
      handleExecute f
        = ExecuteAction.blocked
            "Please fix the validation errors before proceeding") := by
  constructor
  · by_cases h : f.emailCount < 1 ∨ f.emailCount > 10000 <;>
      simp [validateForm, h]
  · intro herr
    simp [handleExecute, isFormValid, herr]

/-- C6 witness: count 0 with an empty category is rejected and blocked;
counts 1 and 10000 produce no count error. -/
theorem email_count_validation_gates_submission_witness :
    handleExecute ⟨"", "", 0, Operation.delete⟩
      = ExecuteAction.blocked
          "Please fix the validation errors before proceeding" ∧
    (validateForm ⟨"in:spam", "30d", 1, Operation.delete⟩).emailCount = none ∧
    (validateForm ⟨"in:spam", "30d", 10000, Operation.delete⟩).emailCount
      = none := by
  refine ⟨(email_count_validation_gates_submission
    ⟨"", "", 0, Operation.delete⟩).2 (by decide), by decide, by decide⟩

/-- C10: `getGoogleOAuthStatus` computes `authenticated` as
`has_token && is_connected && !is_expired`, treating a null `is_expired` as
not-expired: with `has_token = true`, `is_connected = true`,
`is_expired = null` the derived field is `true`, and in general a null
expiry never blocks authentication. -/
theorem null_is_expired_counts_as_not_expired :
    getGoogleOAuthStatus_authenticated ⟨true, none, true⟩ = true ∧
    (∀ h c : Bool,
      getGoogleOAuthStatus_authenticated ⟨h, none, c⟩ = (h && c)) := by
  refine ⟨rfl, ?_⟩
  intro h c
  simp [getGoogleOAuthStatus_authenticated, jsNotOpt]

/-! ## Success-count computation and submission-error handling (`src/unnamed/part_000`) -/

/-- part_000 line 271: `status.result?.successful || status.result?.total || 0`
with JS `||` semantics (`undefined` and `0` are falsy). -/
def processedCount (result : Option TaskResult) : Int :=
  let s := Option.bind result TaskResult.successful
  let t := Option.bind result TaskResult.total
  if jsTruthyNum s then s.getD 0
  else if jsTruthyNum t then t.getD 0
  else 0

/-- The 401 message returned by `getErrorMessage` (part_000 line 316). -/
def AUTH_ERROR_MSG : String :=
  "Gmail authentication expired. Please reconnect your Gmail account from the Dashboard."

/-- The inputs `getErrorMessage` inspects on a submission failure:
`navigator.onLine`, `error.response?.status`, `error.response?.data?.error`
and `error.message`. -/
structure SubmitError where
  online : Bool
  status : Option Nat
  dataError : Option String
  message : Option String
deriving DecidableEq, Repr

/-- `getErrorMessage` (part_000 lines 310-328): offline, then 401, then 429,
then `status >= 500` (false when the status is absent, as in JS), then the
fallback chain `data?.error || message || 'An unexpected error occurred'`. -/
def getErrorMessage (e : SubmitError) : String :=
  if !e.online then
    "No internet connection. Please check your network and try again."
  else if e.status = some 401 then
    AUTH_ERROR_MSG
  else if e.status = some 429 then
    "Too many requests. Please wait a moment and try again."
  else if (match e.status with
           | some s => decide (500 ≤ s)
           | none => false) then
    "Server error occurred. Please try again in a few minutes."
  else
    (jsOrStr e.dataError
      (jsOrStr e.message (some "An unexpected error occurred"))).getD ""

/-- `maxRetries` (part_000 line 216). -/
def maxRetries : Nat := 3

/-- `canRetry` (part_000 lines 493-495):
`retryCount < maxRetries && !error?.includes('Authentication')`, where a null
`error` makes `error?.includes(...)` evaluate to `undefined` (falsy). -/
def canRetry (retryCount : Nat) (error : Option String) : Bool :=
  decide (retryCount < maxRetries) &&
    !(match error with
      | none => false
      | some s => jsIncludes s "Authentication")

/-- C8 counterexample: for a SUCCESS result with an explicit
`successful = 0` and `total = 5`, the code computes 5 (JS `||` skips the
falsy 0), not the explicit successful count 0 the claim requires. -/
theorem processed_count_ignores_zero_successful :
    processedCount (some ⟨some 0, some 5, none⟩) = 5 ∧
    processedCount (some ⟨some 0, some 5, none⟩) ≠ 0 := by
  decide

/-- C8 (amended): the processed count is the `successful` value whenever it
is present and non-zero; it falls back to `total` when `successful` is
absent or zero (JS falsiness) and `total` is present and non-zero; it is 0
when both are absent or zero. -/
theorem processed_count_prefers_truthy_successful (r : Option TaskResult) :
    (∀ n : Int, Option.bind r TaskResult.successful = some n → n ≠ 0 →
      processedCount r = n) ∧
    (∀ n : Int, jsTruthyNum (Option.bind r TaskResult.successful) = false →
      Option.bind r TaskResult.total = some n → n ≠ 0 →
      processedCount r = n) ∧
    (jsTruthyNum (Option.bind r TaskResult.successful) = false →
      jsTruthyNum (Option.bind r TaskResult.total) = false →
      processedCount r = 0) := by
  refine ⟨?_, ?_, ?_⟩
  · intro n hs hn
    simp only [processedCount]
    rw [hs]
    simp [jsTruthyNum, hn]
  · intro n hs ht hn
    simp only [processedCount]
    rw [hs, ht]
    simp [jsTruthyNum, hn]
  · intro hs ht
    simp only [processedCount]
    rw [hs, ht]
    simp

/-- C8 witness: a result with `successful = 7` and `total = 3` reports 7. -/
theorem processed_count_prefers_truthy_successful_witness :
    processedCount (some ⟨some 7, some 3, none⟩) = 7 :=
  (processed_count_prefers_truthy_successful
    (some ⟨some 7, some 3, none⟩)).1 7 rfl (by decide)

/-- C9: a 401 submission failure is classified as the authentication
message, but the retry gate `canRetry` still offers manual retry for it:
the message contains only lowercase "authentication", so the
case-sensitive `includes('Authentication')` check misses it and
`canRetry` is `true` at retry count 0. -/
theorem auth_401_failure_still_offers_retry :
    getErrorMessage ⟨true, some 401, none, none⟩ = AUTH_ERROR_MSG ∧
    jsIncludes AUTH_ERROR_MSG "Authentication" = false ∧
    canRetry 0 (some AUTH_ERROR_MSG) = true ∧
    (∀ e : Option String, canRetry maxRetries e = false) := by
  refine ⟨by decide, by decide, by decide, ?_⟩
  intro e
  simp [canRetry]

/-! ## Task-status polling (`src/unnamed/part_000` lines 260-289) -/

/-- part_000 line 283: the fixed `setInterval` period in milliseconds. -/
def POLL_INTERVAL_MS : Nat := 2000

/-- part_000 line 272: `Operation completed! Processed N emails.` -/
def completedMessage (processed : Int) : String :=
  "Operation completed! Processed " ++ toString processed ++ " emails."

/-- part_000 line 276: `Operation failed: (result?.error || 'Unknown error')`. -/
def failureMessage (result : Option TaskResult) : String :=
  "Operation failed: " ++
    (jsOrStr (Option.bind result TaskResult.error)
      (some "Unknown error")).getD ""

/-- The component state touched by the polling effect: the tracked task,
the success and error alerts, and the `executing` flag. `completionCount`
instruments how many times the SUCCESS branch (one `setSuccess` call with a
completion message) has run. -/
structure PollLoopState where
  currentTask : Option TaskStatusRec
  success : Option String
  error : Option String
  executing : Bool
  completionCount : Nat
deriving DecidableEq, Repr

/-- The effect guard (part_000 line 264):
`currentTask && ['PENDING', 'PROGRESS'].includes(currentTask.status)` — the
interval exists exactly while this holds, and the effect cleanup clears it
otherwise (terminal status, discarded task, or unmount). -/
def pollingActive (cur : Option TaskStatusRec) : Bool :=
  match cur with
  | none => false
  | some t => t.status == TStatus.PENDING || t.status == TStatus.PROGRESS

/-- One tick of the interval callback (part_000 lines 265-283): the fetched
status overwrites `currentTask`; on SUCCESS a completion message is set,
`executing` is cleared and the task is discarded; on FAILURE an error
message is set, `executing` is cleared and the task is discarded. -/
def pollTick (s : PollLoopState) (resp : TaskStatusRec) : PollLoopState :=
  let s1 := { s with currentTask := some resp }
  match resp.status with
  | TStatus.SUCCESS =>
      { s1 with
        success := some (completedMessage (processedCount resp.result)),
        executing := false,
        currentTask := none,
        completionCount := s1.completionCount + 1 }
  | TStatus.FAILURE =>
      { s1 with
        error := some (failureMessage resp.result),
        executing := false,
        currentTask := none }
  | _ => s1

/-- Runs the polling loop against a queue of fetched statuses: a tick
happens only while the interval is live (`pollingActive`); once the guard
fails the interval has been cleared and no further poll call occurs. Returns
the final state and the number of poll calls made. -/
def runPolling (s : PollLoopState) : List TaskStatusRec → PollLoopState × Nat
  | [] => (s, 0)
  | r :: rs =>
    if pollingActive s.currentTask then
      let out := runPolling (pollTick s r) rs
      (out.1, out.2 + 1)
    else (s, 0)

/-- Once the interval is cleared, no further poll calls happen. -/
theorem runPolling_inactive (s : PollLoopState) (l : List TaskStatusRec)
    (h : pollingActive s.currentTask = false) : runPolling s l = (s, 0) := by
  cases l with
  | nil => rfl
  | cons r rs => simp [runPolling, h]

/-- C7: starting from a tracked PENDING task, a response sequence
PROGRESS then SUCCESS (followed by anything) makes exactly two poll calls
on the 2000 ms interval, produces exactly one completion message, discards
the tracked task, and performs zero further poll calls; and every
non-terminal response overwrites the stored task status. -/
theorem polling_terminates_after_success
    (t0 pr su : TaskStatusRec) (rest : List TaskStatusRec)
    (h0 : t0.status = TStatus.PENDING)
    (h1 : pr.status = TStatus.PROGRESS)
    (h2 : su.status = TStatus.SUCCESS) :
    runPolling ⟨some t0, none, none, true, 0⟩ ([pr, su] ++ rest)
      = (⟨none, some (completedMessage (processedCount su.result)),
          none, false, 1⟩, 2) ∧
    (∀ (s : PollLoopState) (r : TaskStatusRec),
      r.status = TStatus.PENDING ∨ r.status = TStatus.PROGRESS →
      (pollTick s r).currentTask = some r) ∧
    POLL_INTERVAL_MS = 2000 := by
  refine ⟨?_, ?_, rfl⟩
  · have ha0 : pollingActive (some t0) = true := by
      simp [pollingActive, h0]
    have htick1 : pollTick ⟨some t0, none, none, true, 0⟩ pr
        = ⟨some pr, none, none, true, 0⟩ := by
      simp [pollTick, h1]
    have ha1 : pollingActive (some pr) = true := by
      simp [pollingActive, h1]
    have htick2 : pollTick ⟨some pr, none, none, true, 0⟩ su
        = ⟨none, some (completedMessage (processedCount su.result)),
            none, false, 1⟩ := by
      simp [pollTick, h2]
    have hrest := runPolling_inactive
      ⟨none, some (completedMessage (processedCount su.result)),
        none, false, 1⟩ rest (by simp [pollingActive])
    simp [runPolling, ha0, ha1, htick1, htick2, hrest]
  · intro s r hr
    rcases hr with h | h <;> simp [pollTick, h]

/-- C7 witness: a concrete PENDING → PROGRESS → SUCCESS run (with one extra
queued response that is never fetched). -/
theorem polling_terminates_after_success_witness :
    runPolling
      ⟨some ⟨"t1", TStatus.PENDING, none⟩, none, none, true, 0⟩
      [⟨"t1", TStatus.PROGRESS, none⟩,
       ⟨"t1", TStatus.SUCCESS, some ⟨some 7, some 7, none⟩⟩,
       ⟨"t1", TStatus.SUCCESS, some ⟨some 7, some 7, none⟩⟩]
      = (⟨none, some (completedMessage 7), none, false, 1⟩, 2) := by
  have h := (polling_terminates_after_success
    ⟨"t1", TStatus.PENDING, none⟩
    ⟨"t1", TStatus.PROGRESS, none⟩
    ⟨"t1", TStatus.SUCCESS, some ⟨some 7, some 7, none⟩⟩
    [⟨"t1", TStatus.SUCCESS, some ⟨some 7, some 7, none⟩⟩]
    rfl rfl rfl).1
  simpa [processedCount, jsTruthyNum] using h

/-! ## Token-refresh coordinator (`src/frontend/src/services/api.ts` lines 42-106)

The browser runtime is single threaded: the response interceptor runs
synchronously from the start of the 401 branch up to
`await this.refreshPromise`, so the check-and-set of `isRefreshing`
(lines 60-61) is atomic. A "401 arrival" event below is that synchronous
prefix for one failing request; a "settle" event is the resolution or
rejection of the shared `refreshPromise`, which runs the `.catch`/`.finally`
handlers (lines 62-69) and then resumes every awaiting continuation
(lines 72-83). -/

/-- The token pair returned by `/auth/refresh/` (`AuthTokens`). -/
structure AuthTokens where
  access : String
  refresh : String
deriving DecidableEq, Repr

/-- The two `localStorage` keys (`access_token`, `refresh_token`). -/
structure StorageState where
  access_token : Option String
  refresh_token : Option String
deriving DecidableEq, Repr

/-- The coordinator's process-wide mutable state: the `isRefreshing` flag,
the generation id of the current shared `refreshPromise` (`refreshCalls`
counts how many times `refreshTokenInternal` has been invoked, and each
invocation creates one promise), the requests awaiting it (paired with the
promise generation they await), plus storage and `window.location`. -/
structure CoordState where
  isRefreshing : Bool
  refreshCalls : Nat
  currentPromise : Option Nat
  waiters : List (Nat × Nat)
  storage : StorageState
  location : Option String
deriving DecidableEq, Repr

/-- The coordinator before any 401 of the episode arrives. -/
def initCoordState (s0 : StorageState) : CoordState :=
  { isRefreshing := false
    refreshCalls := 0
    currentPromise := none
    waiters := []
    storage := s0
    location := none }

/-- One 401 arrival past the guard (api.ts lines 59-73): when no refresh is
in flight, set `isRefreshing`, invoke `refreshTokenInternal()` once
(creating the shared promise), and await it; otherwise only await the
already-pending promise. -/
def handle401 (st : CoordState) (reqId : Nat) : CoordState :=
  if st.isRefreshing then
    { st with waiters := st.waiters ++ [(reqId, st.currentPromise.getD 0)] }
  else
    { st with
        isRefreshing := true
        refreshCalls := st.refreshCalls + 1
        currentPromise := some (st.refreshCalls + 1)
        waiters := st.waiters ++ [(reqId, st.refreshCalls + 1)] }

/-- A batch of 401 arrivals, in order, all before the refresh settles. -/
def processArrivals (st : CoordState) (rs : List Nat) : CoordState :=
  rs.foldl handle401 st

/-- The JS error value a caller of the api observes. `http401 r` is request
`r`'s own original 401 `error`; `refreshFailed` is the error the failed
refresh call itself produced. -/
inductive JsError
  | http401 (reqId : Nat)
  | refreshFailed
deriving DecidableEq, Repr

/-- What finally happens to one awaiting request. -/
inductive Outcome
  | retried (reqId : Nat) (authHeader : String)
  | rejected (reqId : Nat) (err : JsError)
deriving DecidableEq, Repr

/-- Successful settle (api.ts lines 66-69 and 73-79): the `.finally`
resets `isRefreshing` and `refreshPromise`; each awaiting continuation then
stores both new tokens and re-issues its original request once with the
refreshed bearer header (setting its `_retry` marker). -/
def settleSuccess (st : CoordState) (tokens : AuthTokens) :
    CoordState × List Outcome :=
  ({ st with
      isRefreshing := false
      currentPromise := none
      waiters := []
      storage :=
        { access_token := some tokens.access
          refresh_token := some tokens.refresh } },
   st.waiters.map fun w => Outcome.retried w.1 ("Bearer " ++ tokens.access))

/-- Failed settle (api.ts lines 62-69 and 81-83): the `.catch` handler runs
`clearAuthData()` (removing both stored tokens) and navigates to `/login`;
the `.finally` resets the flag and promise; each awaiting continuation then
catches the shared rejection and rejects with its own original 401 error,
not the refresh error. -/
def settleFailure (st : CoordState) : CoordState × List Outcome :=
  ({ st with
      isRefreshing := false
      currentPromise := none
      waiters := []
      storage := { access_token := none, refresh_token := none }
      location := some "/login" },
   st.waiters.map fun w => Outcome.rejected w.1 (JsError.http401 w.1))

/-- While a refresh is in flight, further 401 arrivals only enqueue
awaiters of the already-pending promise: no new refresh call, no flag or
promise change. -/
theorem processArrivals_inflight (rs : List Nat) (st : CoordState)
    (h : st.isRefreshing = true) :
    processArrivals st rs
      = { st with waiters :=
            st.waiters ++ rs.map fun r => (r, st.currentPromise.getD 0) } := by
  induction rs generalizing st with
  | nil => simp [processArrivals]
  | cons r rest ih =>
    have hstep : handle401 st r
        = { st with waiters := st.waiters ++ [(r, st.currentPromise.getD 0)] } := by
      simp [handle401, h]
    have := ih { st with waiters := st.waiters ++ [(r, st.currentPromise.getD 0)] }
      (by simpa using h)
    simp only [processArrivals, List.foldl_cons] at *
    rw [hstep, this]
    simp

/-- Any batch of arrivals from an idle coordinator issues at most one
refresh call. -/
theorem processArrivals_at_most_one_call (rs : List Nat) (s0 : StorageState) :
    (processArrivals (initCoordState s0) rs).refreshCalls ≤ 1 := by
  cases rs with
  | nil => simp [processArrivals, initCoordState]
  | cons a rest =>
    have h1 : handle401 (initCoordState s0) a
        = { isRefreshing := true, refreshCalls := 1, currentPromise := some 1,
            waiters := [(a, 1)], storage := s0, location := none } := by
      simp [handle401, initCoordState]
    have h2 := processArrivals_inflight rest
      { isRefreshing := true, refreshCalls := 1, currentPromise := some 1,
        waiters := [(a, 1)], storage := s0, location := none } rfl
    simp only [processArrivals, List.foldl_cons] at *
    rw [h1, h2]

/-- C1: for any batch of N ≥ 2 requests that each hit a 401 while the
refresh is unsettled, exactly one refresh call is issued (and every prefix
of the episode has at most one call in flight), all of them await the same
first promise, and a successful settle re-issues each of the N original
requests exactly once with the refreshed bearer token. -/
theorem single_flight_refresh (rs : List Nat) (s0 : StorageState)
    (tokens : AuthTokens) (hN : 2 ≤ rs.length) :
    (processArrivals (initCoordState s0) rs).refreshCalls = 1 ∧
    (∀ k : Nat,
      (processArrivals (initCoordState s0) (rs.take k)).refreshCalls ≤ 1) ∧
    (∀ w ∈ (processArrivals (initCoordState s0) rs).waiters, w.2 = 1) ∧
    (settleSuccess (processArrivals (initCoordState s0) rs) tokens).2
      = rs.map fun r => Outcome.retried r ("Bearer " ++ tokens.access) := by
  obtain ⟨a, rest, rfl⟩ : ∃ a rest, rs = a :: rest := by
    cases rs with
    | nil => simp at hN
    | cons a rest => exact ⟨a, rest, rfl⟩
  have h1 : handle401 (initCoordState s0) a
      = { isRefreshing := true, refreshCalls := 1, currentPromise := some 1,
          waiters := [(a, 1)], storage := s0, location := none } := by
    simp [handle401, initCoordState]
  have h2 := processArrivals_inflight rest
    { isRefreshing := true, refreshCalls := 1, currentPromise := some 1,
      waiters := [(a, 1)], storage := s0, location := none } rfl
  have hrun : processArrivals (initCoordState s0) (a :: rest)
      = { isRefreshing := true, refreshCalls := 1, currentPromise := some 1,
          waiters := (a, 1) :: rest.map (fun r => (r, 1)),
          storage := s0, location := none } := by
    simp only [processArrivals, List.foldl_cons]
    rw [h1]
    simpa using h2
  refine ⟨by rw [hrun], fun k => processArrivals_at_most_one_call _ s0, ?_, ?_⟩
  · rw [hrun]
    intro w hw
    rcases List.mem_cons.mp hw with h | h
    · rw [h]
    · obtain ⟨r, _, rfl⟩ := List.mem_map.mp h
      rfl
  · rw [hrun]
    simp [settleSuccess]

/-- C1 witness: three concurrent 401s share one refresh and are all
retried with the new bearer token. -/
theorem single_flight_refresh_witness :
    (settleSuccess
      (processArrivals (initCoordState ⟨some "a0", some "r0"⟩) [10, 11, 12])
      ⟨"a1", "r1"⟩).2
      = [Outcome.retried 10 "Bearer a1",
         Outcome.retried 11 "Bearer a1",
         Outcome.retried 12 "Bearer a1"] := by
  have h := (single_flight_refresh [10, 11, 12] ⟨some "a0", some "r0"⟩
    ⟨"a1", "r1"⟩ (by decide)).2.2.2
  rw [h]
  rfl

/-- C2: if the shared refresh fails, both stored credentials are removed,
the browser is sent to `/login`, and every request that was awaiting the
refresh rejects with its own original 401 error (never the refresh error). -/
theorem failed_refresh_clears_and_rejects (rs : List Nat) (s0 : StorageState) :
    (settleFailure (processArrivals (initCoordState s0) rs)).1.storage
      = { access_token := none, refresh_token := none } ∧
    (settleFailure (processArrivals (initCoordState s0) rs)).1.location
      = some "/login" ∧
    (settleFailure (processArrivals (initCoordState s0) rs)).2
      = rs.map (fun r => Outcome.rejected r (JsError.http401 r)) ∧
    (∀ o ∈ (settleFailure (processArrivals (initCoordState s0) rs)).2,
      ∀ r : Nat, o ≠ Outcome.rejected r JsError.refreshFailed) := by
  have hmap : (processArrivals (initCoordState s0) rs).waiters.map Prod.fst
      = rs := by
    cases rs with
    | nil => simp [processArrivals, initCoordState]
    | cons a rest =>
      have h1 : handle401 (initCoordState s0) a
          = { isRefreshing := true, refreshCalls := 1, currentPromise := some 1,
              waiters := [(a, 1)], storage := s0, location := none } := by
        simp [handle401, initCoordState]
      have h2 := processArrivals_inflight rest
        { isRefreshing := true, refreshCalls := 1, currentPromise := some 1,
          waiters := [(a, 1)], storage := s0, location := none } rfl
      simp only [processArrivals, List.foldl_cons]
      rw [h1]
      simp only [processArrivals] at h2
      rw [h2]
      simp [Function.comp_def]
  refine ⟨rfl, rfl, ?_, ?_⟩
  · show (processArrivals (initCoordState s0) rs).waiters.map
        (fun w => Outcome.rejected w.1 (JsError.http401 w.1))
      = rs.map fun r => Outcome.rejected r (JsError.http401 r)
    conv_rhs => rw [← hmap]
    rw [List.map_map]
    rfl
  · intro o ho r
    show o ≠ Outcome.rejected r JsError.refreshFailed
    obtain ⟨w, _, rfl⟩ := List.mem_map.mp ho
    intro hcontra
    cases hcontra

/-! ## Response-interceptor guard (`api.ts` lines 45-87) -/

/-- The axios request-config fields the interceptor reads and writes: the
`_retry` marker and the request URL. -/
structure RequestConfig where
  _retry : Bool
  url : String
deriving DecidableEq, Repr

/-- The error object the response interceptor receives: the originating
request config and `error.response?.status`. -/
structure AxiosError where
  config : RequestConfig
  status : Option Nat
deriving DecidableEq, Repr

/-- The interceptor's decision for one failing response. -/
inductive InterceptResult
  | reject (err : AxiosError)
  | attemptRefresh
deriving DecidableEq, Repr

/-- The guard (api.ts lines 49-55): already retried, or the URL contains a
login/registration/refresh endpoint, or no `refresh_token` in storage. -/
def interceptGuard (hasRefreshToken : Bool) (e : AxiosError) : Bool :=
  e.config._retry ||
    jsIncludes e.config.url "/auth/login" ||
    jsIncludes e.config.url "/auth/register" ||
    jsIncludes e.config.url "/auth/refresh" ||
    !hasRefreshToken

/-- The response interceptor (api.ts lines 45-87): when the guard holds it
rejects with the error unchanged and performs no refresh; otherwise only a
401 status enters the refresh path, and any other status also rejects with
the error unchanged. -/
def responseInterceptor (hasRefreshToken : Bool) (e : AxiosError) :
    InterceptResult :=
  if interceptGuard hasRefreshToken e then InterceptResult.reject e
  else if e.status = some 401 then InterceptResult.attemptRefresh
  else InterceptResult.reject e

/-- api.ts line 78: before re-issuing, `originalRequest._retry = true`. -/
def markRetried (c : RequestConfig) : RequestConfig :=
  { c with _retry := true }

/-- C3: whenever the retry marker is set, or the URL is a
login/registration/refresh endpoint, or no refresh token is stored, the
interceptor performs no refresh and rejects with the error unchanged; and
since every re-issued request carries the retry marker, a request is
re-issued at most once (its next failure always rejects unchanged). -/
theorem guard_rejects_unchanged_and_retries_at_most_once
    (hasRT : Bool) (e : AxiosError)
    (h : e.config._retry = true ∨
         jsIncludes e.config.url "/auth/login" = true ∨
         jsIncludes e.config.url "/auth/register" = true ∨
         jsIncludes e.config.url "/auth/refresh" = true ∨
         hasRT = false) :
    responseInterceptor hasRT e = InterceptResult.reject e ∧
    (∀ (hrt : Bool) (c : RequestConfig) (st : Option Nat),
      responseInterceptor hrt ⟨markRetried c, st⟩
        = InterceptResult.reject ⟨markRetried c, st⟩) := by
  constructor
  · have hg : interceptGuard hasRT e = true := by
      rcases h with h | h | h | h | h <;> simp [interceptGuard, h]
    simp [responseInterceptor, hg]
  · intro hrt c st
    have hg : interceptGuard hrt ⟨markRetried c, st⟩ = true := by
      simp [interceptGuard, markRetried]
    simp [responseInterceptor, hg]

/-- C3 witness: a 401 on an already-retried request is rejected unchanged
even though a refresh token is stored. -/
theorem guard_rejects_unchanged_and_retries_at_most_once_witness :
    responseInterceptor true ⟨⟨true, "/gmail/labels/"⟩, some 401⟩
      = InterceptResult.reject ⟨⟨true, "/gmail/labels/"⟩, some 401⟩ :=
  (guard_rejects_unchanged_and_retries_at_most_once true
    ⟨⟨true, "/gmail/labels/"⟩, some 401⟩ (Or.inl rfl)).1
